import Mathlib

/-!
Shallow embedding of the three audit scripts of the repository:
`src/scripts/collect-button-sizes.py` (button-size scraper),
`src/verify-typography.py` (typography verification stub), and
`src/archive/typography2/measure_font_sizes.py` (font-size auditor).
Pure computations are translated to Lean functions; fallible steps are
`Except`-valued; rationals stand for Python floats (the decimal rounding
of `round(x, n)` is modelled half-to-even over ℚ).
-/

/-- Boolean test that the first list is an initial segment of the second,
comparing elements with `==`. -/
def listPrefixOf : List Char → List Char → Bool
  | [], _ => true
  | _ :: _, [] => false
  | a :: as, b :: bs => a == b && listPrefixOf as bs

/-- Boolean test that `needle` occurs contiguously somewhere in the second
list: it is an initial segment of some suffix. -/
def listSub (needle : List Char) : List Char → Bool
  | [] => listPrefixOf needle []
  | b :: bs => listPrefixOf needle (b :: bs) || listSub needle bs

/-- Embedding of the Python substring test `needle in hay`. -/
def strContains (hay needle : String) : Bool :=
  listSub needle.toList hay.toList

/-- Round a rational to the nearest integer, ties to the even integer;
this is the rounding mode of Python's built-in `round`. -/
def roundHalfEven (q : ℚ) : ℤ :=
  let n : ℤ := ⌊q⌋
  let f : ℚ := q - n
  if f < 1/2 then n
  else if 1/2 < f then n + 1
  else if n % 2 = 0 then n else n + 1

/-- Embedding of Python `round(q, 2)`: round to the nearest multiple of
1/100, ties to even. -/
def pythonRound2 (q : ℚ) : ℚ := (roundHalfEven (q * 100) : ℚ) / 100

/-- Embedding of the Python format `f"{q:.1f}"`: the value rounded to one
decimal digit, rendered with exactly one fractional digit. -/
def fmtFixed1 (q : ℚ) : String :=
  let r : ℤ := roundHalfEven (q * 10)
  let sign : String := if r < 0 then "-" else ""
  sign ++ toString (r.natAbs / 10) ++ "." ++ toString (r.natAbs % 10)

/-- Embedding of the Python format `f"{q:+.1f}"`: as `fmtFixed1` but with
an explicit leading sign. -/
def fmtSignedFixed1 (q : ℚ) : String :=
  let r : ℤ := roundHalfEven (q * 10)
  let sign : String := if r < 0 then "-" else "+"
  sign ++ toString (r.natAbs / 10) ++ "." ++ toString (r.natAbs % 10)

namespace BtnSizes

/-- Embedding of `TW_H_MAP` from `src/scripts/collect-button-sizes.py`,
an insertion-ordered dictionary from Tailwind height tokens to pixel
strings. -/
def TW_H_MAP : List (String × String) :=
  [("h-4", "16px"),
   ("h-5", "20px"),
   ("h-6", "24px"),
   ("h-7", "28px"),
   ("h-8", "32px"),
   ("h-9", "36px"),
   ("h-10", "40px"),
   ("h-11", "44px")]

/-- Embedding of `TW_H_MAP.keys()`: the keys in insertion order. -/
def TW_H_KEYS : List String := TW_H_MAP.map Prod.fst

/-- Embedding of the scraper's token scan
`for token in TW_H_MAP.keys(): if token in cls_text: h_token = token; break`
generalised over the key list: the first key of `ks` that occurs as a
substring of `cls_text`, if any. -/
def firstTokenIn (ks : List String) (cls_text : String) : Option String :=
  match ks with
  | [] => none
  | t :: ts => if strContains cls_text t then some t else firstTokenIn ts cls_text

/-- Embedding of the scraper's `h_token` value for a collapsed class
string: the first `TW_H_MAP` key occurring as a substring. -/
def h_token (cls_text : String) : Option String :=
  firstTokenIn TW_H_KEYS cls_text

/-- Embedding of the scraper's height derivation (lines 44-59): the
`h-[var(--ui-button-height)]` check takes precedence, then the first
recognized token's mapped value, then the fallback placeholder. -/
def height_px (cls_text : String) : String :=
  if strContains cls_text "h-[var(--ui-button-height)]" then
    "32px (var(--ui-button-height))"
  else
    match h_token cls_text with
    | some t => (List.lookup t TW_H_MAP).getD "unknown"
    | none => "button-variant-default (32px expected)"

end BtnSizes

namespace VerifyTypo

/-- Embedding of `EXPECTED_SIZES` from `src/verify-typography.py`. -/
def EXPECTED_SIZES : List (String × String) :=
  [("text-ui-xs", "12px"),
   ("text-ui-sm", "14px"),
   ("text-ui-md", "16px"),
   ("text-ui-lg", "18px"),
   ("text-ui-xl", "20px"),
   ("text-ui-2xl", "24px"),
   ("text-ui-3xl", "30px")]

/-- One entry of the fixed `TEST_CASES` table. -/
structure TestCase where
  component : String
  selector : String
  expected : String
deriving DecidableEq

/-- Embedding of the fixed `TEST_CASES` table. -/
def TEST_CASES : List TestCase :=
  [⟨"Button (default)", "button", "text-ui-sm"⟩,
   ⟨"Badge", ".inline-flex.items-center.rounded-full", "text-ui-xs"⟩,
   ⟨"Input Field", "input[type=\"text\"]", "text-ui-md"⟩,
   ⟨"Label", "label", "text-ui-sm"⟩,
   ⟨"Dropdown Menu Item", "[role=\"menuitem\"]", "text-ui-sm"⟩,
   ⟨"Tab Trigger", "[role=\"tab\"]", "text-ui-sm"⟩,
   ⟨"Toast Title", "[data-title]", "text-ui-sm"⟩,
   ⟨"Dialog Title", "h2[id*=\"dialog\"]", "text-ui-lg"⟩,
   ⟨"Compilation Output", "[data-testid=\"compilation-text\"]", "text-ui-sm"⟩,
   ⟨"Serial Monitor", "[data-testid=\"serial-output\"]", "text-ui-xs"⟩,
   ⟨"Parser Analysis Header", ".bg-muted .text-white", "text-ui-sm"⟩]

/-- Embedding of `get_computed_style_via_js`: the stand-in returns
`EXPECTED_SIZES.get(selector, '14px')`, keyed by the selector. -/
def get_computed_style_via_js (_url : String) (selector : String) : String :=
  (List.lookup selector EXPECTED_SIZES).getD "14px"

/-- One result record of the verification loop. -/
structure VResult where
  component : String
  expected_token : String
  expected_size : String
  actual_size : String
  status : String
deriving DecidableEq

/-- Embedding of one iteration of the loop in `verify_typography`:
the `EXPECTED_SIZES[expected_token]` subscript raises `KeyError` on a
missing token; the simulated measurement sets the actual size to the
expected size; status and the per-test pass flag follow. -/
def runTestCase (t : TestCase) : Except String (VResult × Bool) :=
  match List.lookup t.expected EXPECTED_SIZES with
  | none => Except.error ("KeyError: " ++ t.expected)
  | some expected_size =>
    let actual_size := expected_size
    let passed := actual_size == expected_size
    let status := if passed then "✓ PASS" else "✗ FAIL"
    Except.ok (⟨t.component, t.expected, expected_size, actual_size, status⟩, passed)

/-- Embedding of the accumulation in `verify_typography`: results are
appended in order and `all_pass` is the running conjunction of the
per-test flags, starting from `true`. -/
def verifyLoopAux (acc : List VResult) (all_pass : Bool) :
    List TestCase → Except String (List VResult × Bool)
  | [] => Except.ok (acc.reverse, all_pass)
  | t :: ts =>
    match runTestCase t with
    | Except.error e => Except.error e
    | Except.ok (r, passed) => verifyLoopAux (r :: acc) (all_pass && passed) ts

/-- The verification loop over a test-case table. -/
def verifyLoop (ts : List TestCase) : Except String (List VResult × Bool) :=
  verifyLoopAux [] true ts

/-- The result rows the stub produces on its fixed table (empty if the
loop raised). -/
def vtResults : List VResult :=
  match verifyLoop TEST_CASES with
  | Except.ok (rs, _) => rs
  | Except.error _ => []

/-- The `all_pass` summary flag of the stub on its fixed table (`false`
if the loop raised). -/
def vtAllPass : Bool :=
  match verifyLoop TEST_CASES with
  | Except.ok (_, ap) => ap
  | Except.error _ => false

/-- Embedding of a whole run of `verify_typography`: after the loop, the
script opens the hard-coded absolute path
`/Users/to/sciebo/TT_Web/UNOWEBSIM_github_dupe/typography-verification-evidence.json`
for writing; `writeOk` says whether that open succeeds in the current
environment, and a failed open raises `FileNotFoundError`. -/
def verify_typography (writeOk : Bool) : Except String (List VResult × Bool) :=
  match verifyLoop TEST_CASES with
  | Except.error e => Except.error e
  | Except.ok (rs, ap) =>
    if writeOk then Except.ok (rs, ap) else Except.error "FileNotFoundError"

/-- Whether a run of the stub completes without raising. -/
def runSucceeds (writeOk : Bool) : Bool :=
  match verify_typography writeOk with
  | Except.ok _ => true
  | Except.error _ => false

end VerifyTypo

namespace FontAudit

/-- Embedding of `FONT_SCALES` from
`src/archive/typography2/measure_font_sizes.py`: label, scale factor and
expected pixel size of the five presets. -/
def FONT_SCALES : List (String × ℚ × ℤ) :=
  [("S", 7/8, 12),
   ("M", 1, 14),
   ("L", 9/8, 16),
   ("XL", 5/4, 18),
   ("XXL", 3/2, 20)]

/-- One entry of the JSON selector config: `{name, selector, description?}`,
with a missing description defaulting to the empty string. -/
structure Component where
  name : String
  selector : String
  description : String
deriving DecidableEq

/-- Outcome of one browser measurement attempt, abstracting what the
remote browser did: a computed size, a `TimeoutException` from the
3-second wait, a `NoSuchElementException`, or any other exception with
its message. -/
inductive MeasureOutcome where
  | success (size : ℚ)
  | timeout
  | noSuch
  | failure (msg : String)

/-- Embedding of `measure_font_size` (lines 58-87): the returned triple
(measured size, status string, error string) for each outcome of the
browser interaction. -/
def measure_font_size (o : MeasureOutcome) : Option ℚ × String × Option String :=
  match o with
  | MeasureOutcome.success s => (some s, "✓", none)
  | MeasureOutcome.timeout => (none, "Timeout", some "Element nicht innerhalb von 3s gefunden")
  | MeasureOutcome.noSuch => (none, "Nicht gefunden", some "Selektor matched kein Element")
  | MeasureOutcome.failure e => (none, "Fehler", some e)

/-- One accumulated result row, with the fields of the Python dict in
order: Komponente, Beschreibung, CSS-Selektor, Skalierung,
Gemessene Größe (px), Erwartet (px), Status, Abweichung. -/
structure Row where
  komponente : String
  beschreibung : String
  selektor : String
  skalierung : String
  gemessene : String
  erwartet : ℤ
  status : String
  abweichung : String
deriving DecidableEq

/-- Embedding of `abweichung = round(measured - expected_px, 2)`
(line 185). -/
def abweichungOf (measured : ℚ) (expected_px : ℤ) : ℚ :=
  pythonRound2 (measured - expected_px)

/-- Embedding of `status = "✓" if abs(abweichung) <= 1.0 else "✗"`
(line 187). -/
def statusOf (abweichung : ℚ) : String :=
  if |abweichung| ≤ 1 then "✓" else "✗"

/-- Embedding of the row appended for one (scale, component) iteration of
the main loop (lines 180-214): the success branch computes the rounded
deviation and the tolerance status; the failure branch records the status
string as the measured column, status `✗`, and the error text (or `N/A`)
as the deviation column. -/
def buildRow (label : String) (expected_px : ℤ) (comp : Component)
    (o : MeasureOutcome) : Row :=
  let m := measure_font_size o
  match m.1 with
  | some measured =>
    let abweichung := abweichungOf measured expected_px
    { komponente := comp.name
      beschreibung := comp.description
      selektor := comp.selector
      skalierung := label
      gemessene := fmtFixed1 measured
      erwartet := expected_px
      status := statusOf abweichung
      abweichung := fmtSignedFixed1 abweichung }
  | none =>
    { komponente := comp.name
      beschreibung := comp.description
      selektor := comp.selector
      skalierung := label
      gemessene := m.2.1
      erwartet := expected_px
      status := "✗"
      abweichung := (m.2.2).getD "N/A" }

/-- Embedding of the main measurement loop (lines 170-216): for every
preset in `FONT_SCALES` and every configured component, exactly one row
is appended; the measurement outcome for a given preset and component is
supplied by the `oracle` abstracting the browser. -/
def runResults (selectors : List Component)
    (oracle : String → Component → MeasureOutcome) : List Row :=
  (FONT_SCALES.map (fun s =>
    selectors.map (fun comp => buildRow s.1 s.2.2 comp (oracle s.1 comp)))).flatten

/-- Embedding of `passed = sum(1 for r in results if r['Status'] == '✓')`
(line 242). -/
def passedCount (rows : List Row) : ℕ :=
  (rows.filter (fun r => r.status == "✓")).length

/-- Embedding of `failed = total - passed` (line 243). -/
def failedCount (rows : List Row) : ℕ :=
  rows.length - passedCount rows

/-- Embedding of the summary block (lines 240-246): total, passed,
failed, and the two percentages `100*passed/total` and
`100*failed/total`, which raise `ZeroDivisionError` when `total == 0`. -/
def mdSummary (rows : List Row) : Except String (ℕ × ℕ × ℕ × ℚ × ℚ) :=
  let total := rows.length
  let passed := passedCount rows
  let failed := failedCount rows
  if total = 0 then Except.error "ZeroDivisionError: division by zero"
  else Except.ok (total, passed, failed,
    (100 * passed : ℚ) / total, (100 * failed : ℚ) / total)

/-- The cell values of one Markdown table row, in column order as written
by lines 227-237; the selector cell is wrapped in backticks there. -/
def mdRowCells (r : Row) : List String :=
  [r.komponente, r.beschreibung, "`" ++ r.selektor ++ "`", r.skalierung,
   r.gemessene, toString r.erwartet, r.status, r.abweichung]

/-- The cell values of one CSV row, in column order as written by
lines 256-266. -/
def csvRowCells (r : Row) : List String :=
  [r.komponente, r.beschreibung, r.selektor, r.skalierung,
   r.gemessene, toString r.erwartet, r.status, r.abweichung]

/-- The fixed Markdown lines written before the result rows
(lines 221-226). -/
def mdHeaderLines (url datum : String) : List String :=
  ["# Font Size Measurement Report",
   "**Datum:** " ++ datum,
   "**URL:** " ++ url,
   "## Ergebnisse",
   "| Komponente | Beschreibung | CSS-Selektor | Skalierung | Gemessen (px) | Erwartet (px) | Status | Abweichung |",
   "|------------|--------------|--------------|------------|---------------|---------------|--------|------------|"]

/-- One Markdown table line for a row (lines 228-237). -/
def mdRowLine (r : Row) : String :=
  "| " ++ r.komponente ++ " | " ++ r.beschreibung ++ " | `" ++ r.selektor
    ++ "` | " ++ r.skalierung ++ " | " ++ r.gemessene ++ " | "
    ++ toString r.erwartet ++ " | " ++ r.status ++ " | " ++ r.abweichung ++ " |"

/-- Embedding of the Markdown report write (lines 220-246): the first
component is every line already written to the file when the summary
computation runs; the second is the summary computation itself, which is
the only fallible step of the write. -/
def writeMarkdown (url datum : String) (rows : List Row) :
    List String × Except String (ℕ × ℕ × ℕ × ℚ × ℚ) :=
  (mdHeaderLines url datum ++ rows.map mdRowLine, mdSummary rows)

/-- Trace and outcome of a code block: the browser commands it issued,
and whether it completed or raised. -/
structure TraceResult where
  trace : List String
  result : Except String Unit

/-- Embedding of Python `try: body finally: cleanup`: the cleanup
commands run after the body whether the body completed or raised, and a
raised exception propagates afterwards unchanged. -/
def tryFinally (body : TraceResult) (cleanup : List String) : TraceResult :=
  { trace := body.trace ++ cleanup, result := body.result }

/-- Embedding of the structure of `main` after `init_driver` returned
(lines 151-274): the whole body runs inside `try ... finally:
driver.quit()`. -/
def mainAfterInit (body : TraceResult) : TraceResult :=
  tryFinally body ["driver.quit"]

/-- A concrete successful-measurement row, used to evaluate the report
serializers on an input. -/
def sampleRow : Row :=
  { komponente := "Button (default)"
    beschreibung := ""
    selektor := "button"
    skalierung := "M"
    gemessene := "14.0"
    erwartet := 14
    status := "✓"
    abweichung := "+0.0" }

end FontAudit

/-! Helper lemmas about the token scan and association-list lookup. -/

theorem firstTokenIn_none_iff (ks : List String) (cls : String) :
    BtnSizes.firstTokenIn ks cls = none ↔ ∀ t ∈ ks, strContains cls t = false := by
  induction ks with
  | nil => simp [BtnSizes.firstTokenIn]
  | cons a as ih =>
    cases hc : strContains cls a with
    | true => simp [BtnSizes.firstTokenIn, hc]
    | false => simp [BtnSizes.firstTokenIn, hc, ih]

theorem firstTokenIn_some_split (ks : List String) (cls t : String)
    (h : BtnSizes.firstTokenIn ks cls = some t) :
    strContains cls t = true ∧
      ∃ pre post, ks = pre ++ t :: post ∧ ∀ u ∈ pre, strContains cls u = false := by
  induction ks with
  | nil => simp [BtnSizes.firstTokenIn] at h
  | cons a as ih =>
    cases hc : strContains cls a with
    | true =>
      have ha : a = t := by
        simpa [BtnSizes.firstTokenIn, hc] using h
      subst ha
      exact ⟨hc, [], as, rfl, by simp⟩
    | false =>
      have h' : BtnSizes.firstTokenIn as cls = some t := by
        simpa [BtnSizes.firstTokenIn, hc] using h
      obtain ⟨hct, pre, post, hks, hpre⟩ := ih h'
      refine ⟨hct, a :: pre, post, by simp [hks], ?_⟩
      intro u hu
      rcases List.mem_cons.mp hu with rfl | hu
      · exact hc
      · exact hpre u hu

theorem lookup_of_mem_keys (l : List (String × String)) (u : String)
    (h : u ∈ l.map Prod.fst) :
    ∃ px, List.lookup u l = some px ∧ (u, px) ∈ l := by
  induction l with
  | nil => simp at h
  | cons p l ih =>
    by_cases he : u = p.1
    · subst he
      refine ⟨p.2, ?_, by simp⟩
      simp [List.lookup]
    · have hu : u ∈ l.map Prod.fst := by
        rcases List.mem_cons.mp h with h1 | h1
        · exact absurd h1 he
        · exact h1
      obtain ⟨px, hl, hm⟩ := ih hu
      refine ⟨px, ?_, List.mem_cons_of_mem _ hm⟩
      have : (u == p.1) = false := by
        simp [he]
      simp [List.lookup, this, hl]

/-- Claim C3 (counterexample): a class string that contains both the
recognized token `h-4` and the height CSS variable derives the variable
placeholder, not the token's mapped pixel value `16px`, because the
variable check takes precedence. -/
theorem C3_var_precedence_cex :
    strContains "h-4 h-[var(--ui-button-height)]" "h-4" = true ∧
    ("h-4", "16px") ∈ BtnSizes.TW_H_MAP ∧
    BtnSizes.height_px "h-4 h-[var(--ui-button-height)]" =
      "32px (var(--ui-button-height))" ∧
    BtnSizes.height_px "h-4 h-[var(--ui-button-height)]" ≠ "16px" := by
  refine ⟨by decide, by decide, by decide, by decide⟩

/-- Claim C3 (amended): for a class string that does not contain the
height CSS variable, if it contains some recognized height token then the
derived height is the table value of a contained token, and if it
contains no recognized token the derived height is the fixed fallback
placeholder string. -/
theorem C3_height_token_or_fallback :
    ∀ cls : String, strContains cls "h-[var(--ui-button-height)]" = false →
      ((∃ t ∈ BtnSizes.TW_H_KEYS, strContains cls t = true) →
        ∃ u px, u ∈ BtnSizes.TW_H_KEYS ∧ strContains cls u = true ∧
          (u, px) ∈ BtnSizes.TW_H_MAP ∧ BtnSizes.height_px cls = px) ∧
      ((∀ t ∈ BtnSizes.TW_H_KEYS, strContains cls t = false) →
        BtnSizes.height_px cls = "button-variant-default (32px expected)") := by
  intro cls hvar
  constructor
  · rintro ⟨t, ht, hct⟩
    cases hk : BtnSizes.h_token cls with
    | none =>
      have hall := (firstTokenIn_none_iff BtnSizes.TW_H_KEYS cls).mp hk
      rw [hall t ht] at hct
      exact absurd hct (by simp)
    | some u =>
      obtain ⟨hcu, pre, post, hks, _⟩ :=
        firstTokenIn_some_split BtnSizes.TW_H_KEYS cls u hk
      have hu_mem : u ∈ BtnSizes.TW_H_KEYS := by
        rw [hks]; simp
      obtain ⟨px, hlook, hmem⟩ := lookup_of_mem_keys BtnSizes.TW_H_MAP u hu_mem
      refine ⟨u, px, hu_mem, hcu, hmem, ?_⟩
      simp [BtnSizes.height_px, hvar, hk, hlook]
  · intro hall
    have hk : BtnSizes.h_token cls = none :=
      (firstTokenIn_none_iff BtnSizes.TW_H_KEYS cls).mpr hall
    simp [BtnSizes.height_px, hvar, hk]

/-- Claim C3 (witness): the class string `h-8` contains no height CSS
variable and contains the token `h-8`, so the derived height is that
token's table value. -/
theorem C3_height_token_or_fallback_witness :
    ∃ u px, u ∈ BtnSizes.TW_H_KEYS ∧ strContains "h-8" u = true ∧
      (u, px) ∈ BtnSizes.TW_H_MAP ∧ BtnSizes.height_px "h-8" = px :=
  (C3_height_token_or_fallback "h-8" (by decide)).1 ⟨"h-8", by decide, by decide⟩

/-- Claim C10: token recognition is substring containment over the class
string and the first `TW_H_MAP` key in dictionary order wins: the class
string `h-40` is not itself a key yet derives `16px` through its
substring `h-4`; in `h-8 h-5` the earlier table key `h-5` wins although
`h-8` occurs first in the string; and in general a recognized token is a
contained substring such that every earlier key of the table is not
contained. -/
theorem C10_substring_first_key_wins :
    BtnSizes.TW_H_KEYS.contains "h-40" = false ∧
    strContains "h-40" "h-4" = true ∧
    BtnSizes.h_token "h-40" = some "h-4" ∧
    BtnSizes.height_px "h-40" = "16px" ∧
    strContains "h-8 h-5" "h-8" = true ∧
    BtnSizes.height_px "h-8 h-5" = "20px" ∧
    (∀ cls t, BtnSizes.h_token cls = some t →
      strContains cls t = true ∧
      ∃ pre post, BtnSizes.TW_H_KEYS = pre ++ t :: post ∧
        ∀ u ∈ pre, strContains cls u = false) := by
  refine ⟨by decide, by decide, by decide, by decide, by decide, by decide, ?_⟩
  intro cls t h
  exact firstTokenIn_some_split BtnSizes.TW_H_KEYS cls t h

/-- Claim C10 (witness): the general first-key characterization evaluated
at the class string `h-40`, whose recognized token is `h-4`. -/
theorem C10_substring_first_key_wins_witness :
    strContains "h-40" "h-4" = true ∧
    ∃ pre post, BtnSizes.TW_H_KEYS = pre ++ "h-4" :: post ∧
      ∀ u ∈ pre, strContains "h-40" u = false :=
  C10_substring_first_key_wins.2.2.2.2.2.2 "h-40" "h-4" (by decide)

/-- Claim C2: on the fixed test-case table the stub produces one result
per entry, every result's status is the pass status `✓ PASS` with actual
size equal to expected size, and the all-pass summary flag is true. -/
theorem C2_stub_always_pass :
    VerifyTypo.vtResults.length = VerifyTypo.TEST_CASES.length ∧
    VerifyTypo.vtResults.all
      (fun r => r.status == "✓ PASS" && r.actual_size == r.expected_size) = true ∧
    VerifyTypo.vtAllPass = true := by
  refine ⟨rfl, rfl, rfl⟩

/-- Claim C6 (counterexample): a run of the stub in an environment where
the hard-coded evidence-file path cannot be opened for writing raises,
so the stub does have an error path. -/
theorem C6_write_failure_cex :
    VerifyTypo.verify_typography false = Except.error "FileNotFoundError" := by
  rfl

/-- Claim C6 (amended): the verification loop itself has no error path —
every expected-token lookup on the fixed table succeeds — and a run
completes without raising exactly when the hard-coded evidence-file path
can be opened for writing. -/
theorem C6_no_internal_error_path :
    VerifyTypo.TEST_CASES.all
      (fun t => (List.lookup t.expected VerifyTypo.EXPECTED_SIZES).isSome) = true ∧
    ∀ writeOk : Bool, VerifyTypo.runSucceeds writeOk = writeOk := by
  refine ⟨by decide, ?_⟩
  intro writeOk
  cases writeOk with
  | false => rfl
  | true => rfl

/-- Claim C1 (counterexample): for a measured size of 15.004 px against
an expected 14 px, the recorded deviation is the rounded value 1.0, not
the exact difference 1.004, and the row passes although the exact
difference exceeds 1.0 px. -/
theorem C1_rounded_deviation_cex :
    FontAudit.abweichungOf (3751/250) 14 = 1 ∧
    (3751 : ℚ)/250 - ((14 : ℤ) : ℚ) = 251/250 ∧
    FontAudit.abweichungOf (3751/250) 14 ≠ (3751 : ℚ)/250 - ((14 : ℤ) : ℚ) ∧
    FontAudit.statusOf (FontAudit.abweichungOf (3751/250) 14) = "✓" ∧
    ¬ |(3751 : ℚ)/250 - ((14 : ℤ) : ℚ)| ≤ 1 := by
  have h1 : FontAudit.abweichungOf (3751/250) 14 = 1 := by
    simp only [FontAudit.abweichungOf, pythonRound2, roundHalfEven]
    norm_num
  have h2 : (3751 : ℚ)/250 - ((14 : ℤ) : ℚ) = 251/250 := by norm_num
  refine ⟨h1, h2, ?_, ?_, ?_⟩
  · rw [h1, h2]; norm_num
  · rw [h1]; norm_num [FontAudit.statusOf]
  · rw [h2, abs_of_nonneg (by norm_num)]; norm_num

/-- Claim C1 (amended): for every successfully measured row, the recorded
deviation is `round(measured - expected, 2)` — the difference rounded
half-to-even to two decimal places — and the row's status is `✓` if and
only if the absolute value of that rounded deviation is at most 1.0 px. -/
theorem C1_deviation_rounded_and_status :
    ∀ (m : ℚ) (e : ℤ) (lbl : String) (comp : FontAudit.Component),
      FontAudit.abweichungOf m e = pythonRound2 (m - e) ∧
      (FontAudit.buildRow lbl e comp (FontAudit.MeasureOutcome.success m)).abweichung =
        fmtSignedFixed1 (pythonRound2 (m - e)) ∧
      ((FontAudit.buildRow lbl e comp (FontAudit.MeasureOutcome.success m)).status = "✓" ↔
        |pythonRound2 (m - e)| ≤ 1) := by
  intro m e lbl comp
  refine ⟨rfl, rfl, ?_⟩
  have hrow : (FontAudit.buildRow lbl e comp (FontAudit.MeasureOutcome.success m)).status
      = FontAudit.statusOf (FontAudit.abweichungOf m e) := rfl
  rw [hrow]
  simp only [FontAudit.statusOf, FontAudit.abweichungOf]
  split_ifs with h
  · exact iff_of_true rfl h
  · exact iff_of_false (by decide) h

/-- Claim C4 (counterexample): when the wait budget elapses without a
match (a timeout), the appended row's Status field is `✗` — not
"not found" — and the timeout marker lands in the measured-size field. -/
theorem C4_timeout_status_cex :
    (FontAudit.buildRow "M" 14 ⟨"Button (default)", "button", ""⟩
        FontAudit.MeasureOutcome.timeout).status = "✗" ∧
    (FontAudit.buildRow "M" 14 ⟨"Button (default)", "button", ""⟩
        FontAudit.MeasureOutcome.timeout).status ≠ "not found" ∧
    (FontAudit.buildRow "M" 14 ⟨"Button (default)", "button", ""⟩
        FontAudit.MeasureOutcome.timeout).gemessene = "Timeout" := by
  refine ⟨rfl, by decide, rfl⟩

/-- Claim C4 (amended): for every selector whose element is not found
within the wait budget, the recorded row carries the timeout marker
`Timeout` in its measured-size field and `✗` in its Status field, and
adding that row to the accumulated results increments the failed count
and leaves the passed count unchanged. -/
theorem C4_timeout_counts_as_failed :
    ∀ (lbl : String) (e : ℤ) (comp : FontAudit.Component)
      (rows : List FontAudit.Row),
      (FontAudit.buildRow lbl e comp FontAudit.MeasureOutcome.timeout).gemessene =
        "Timeout" ∧
      (FontAudit.buildRow lbl e comp FontAudit.MeasureOutcome.timeout).status = "✗" ∧
      FontAudit.passedCount
          (FontAudit.buildRow lbl e comp FontAudit.MeasureOutcome.timeout :: rows) =
        FontAudit.passedCount rows ∧
      FontAudit.failedCount
          (FontAudit.buildRow lbl e comp FontAudit.MeasureOutcome.timeout :: rows) =
        FontAudit.failedCount rows + 1 := by
  intro lbl e comp rows
  have hst : (FontAudit.buildRow lbl e comp FontAudit.MeasureOutcome.timeout).status
      = "✗" := rfl
  have hfa : ((FontAudit.buildRow lbl e comp FontAudit.MeasureOutcome.timeout).status
      == "✓") = false := by
    rw [hst]; decide
  have hle : (rows.filter (fun r => r.status == "✓")).length ≤ rows.length :=
    List.length_filter_le _ _
  refine ⟨rfl, hst, ?_, ?_⟩
  · simp [FontAudit.passedCount, List.filter_cons, hfa]
  · simp [FontAudit.failedCount, FontAudit.passedCount, List.filter_cons, hfa]
    omega

/-- Claim C5: for every configuration and every behaviour of the browser,
the number of accumulated rows equals the number of scale presets (five)
times the number of configured components: each (preset, component) pair
appends exactly one row and no failure aborts the loop. -/
theorem C5_total_rows :
    ∀ (selectors : List FontAudit.Component)
      (oracle : String → FontAudit.Component → FontAudit.MeasureOutcome),
      (FontAudit.runResults selectors oracle).length =
        FontAudit.FONT_SCALES.length * selectors.length ∧
      FontAudit.FONT_SCALES.length = 5 := by
  intro sel oracle
  refine ⟨?_, rfl⟩
  simp [FontAudit.runResults, List.length_flatten, List.map_map, Function.comp,
    FontAudit.FONT_SCALES]
  omega

/-- Claim C7: once the browser session has been acquired, the body of the
run is wrapped so that the session-terminating `driver.quit` command is
issued on every exit path — whether the body completed or raised — and a
raised exception still propagates afterwards. -/
theorem C7_quit_on_every_exit :
    ∀ body : FontAudit.TraceResult,
      "driver.quit" ∈ (FontAudit.mainAfterInit body).trace ∧
      (FontAudit.mainAfterInit body).result = body.result := by
  intro body
  refine ⟨?_, rfl⟩
  simp [FontAudit.mainAfterInit, FontAudit.tryFinally]

/-- Claim C8 (counterexample): for a concrete row, the cell values the
Markdown table writes differ from the cells the CSV writes — the
Markdown wraps the CSS-selector value in backticks. -/
theorem C8_backtick_cells_cex :
    FontAudit.mdRowCells FontAudit.sampleRow ≠
      FontAudit.csvRowCells FontAudit.sampleRow ∧
    (FontAudit.mdRowCells FontAudit.sampleRow).get? 2 = some "`button`" ∧
    (FontAudit.csvRowCells FontAudit.sampleRow).get? 2 = some "button" := by
  refine ⟨by decide, rfl, rfl⟩

/-- Claim C8 (amended): for a given run the Markdown and CSV reports
serialize the same accumulated results list, so they contain the same
number of rows with eight cells each, and the cell values agree in every
column except the CSS-selector column, where the Markdown wraps the same
value in backticks. -/
theorem C8_md_csv_rows_agree :
    ∀ (results : List FontAudit.Row) (r : FontAudit.Row) (i : ℕ),
      (results.map FontAudit.mdRowCells).length =
        (results.map FontAudit.csvRowCells).length ∧
      (FontAudit.mdRowCells r).length = 8 ∧
      (FontAudit.csvRowCells r).length = 8 ∧
      (FontAudit.mdRowCells r).get? 2 = some ("`" ++ r.selektor ++ "`") ∧
      (FontAudit.csvRowCells r).get? 2 = some r.selektor ∧
      (i ≠ 2 → (FontAudit.mdRowCells r).get? i = (FontAudit.csvRowCells r).get? i) := by
  intro results r i
  refine ⟨by simp, rfl, rfl, rfl, rfl, ?_⟩
  intro hi
  match i with
  | 0 => rfl
  | 1 => rfl
  | 2 => exact absurd rfl hi
  | 3 => rfl
  | 4 => rfl
  | 5 => rfl
  | 6 => rfl
  | 7 => rfl
  | (n+8) => rfl

/-- Claim C8 (witness): the cell agreement evaluated at the sample row in
the first column. -/
theorem C8_md_csv_rows_agree_witness :
    (FontAudit.mdRowCells FontAudit.sampleRow).get? 0 =
      (FontAudit.csvRowCells FontAudit.sampleRow).get? 0 :=
  (C8_md_csv_rows_agree [FontAudit.sampleRow] FontAudit.sampleRow 0).2.2.2.2.2
    (by decide)

/-- Claim C9: with a valid but empty JSON config (zero components) the
run accumulates zero rows, the Markdown header and (empty) row block are
already written, and the summary computation `100*passed/total` raises
`ZeroDivisionError` — so an empty-but-valid config is fatal after the
report is partially written. -/
theorem C9_empty_config_zero_division :
    ∀ (oracle : String → FontAudit.Component → FontAudit.MeasureOutcome)
      (url datum : String),
      FontAudit.runResults [] oracle = [] ∧
      (FontAudit.writeMarkdown url datum (FontAudit.runResults [] oracle)).2 =
        Except.error "ZeroDivisionError: division by zero" ∧
      (FontAudit.writeMarkdown url datum (FontAudit.runResults [] oracle)).1 ≠ [] := by
  intro oracle url datum
  have h : FontAudit.runResults [] oracle = [] := rfl
  refine ⟨h, ?_, ?_⟩
  · rw [h]
    rfl
  · rw [h]
    simp [FontAudit.writeMarkdown, FontAudit.mdHeaderLines]
